import Mathlib

/-!
# Verification of the karomia-frontend tag reconciliation logic

Shallow embedding of the tag-mark logic of `vanmarkic/karomia-frontend`:

* `src/lib/tag-removal-utils.ts` — the pure helpers `validateTagRemoval`,
  `generateUpdatedTagStyle`, `countTagInstances`, `extractTagInfoFromElement`;
* `src/stores/tagStore.ts` — the store actions `applyTagToSelection`,
  `removeTagsFromChunk`, `removeTagsFromDocument`, `createTag`;
* `src/hooks/useTagRemoval.ts` — the deferred sidebar cleanup that runs
  after the hook variant of `removeTagsFromChunk`.

Modelling conventions:

* A ProseMirror text node carrying (at most) one `taggedSpan` mark is a
  `Span`; a document is the ordered list of its text nodes.
* The `data-tag` attribute is stored in the source as a space-joined string
  and is re-read everywhere with `.split(" ").filter(Boolean)`.  We model the
  attribute as the token list `tagIds : List String` directly; joining with
  `" "` and re-splitting is the identity on lists of non-empty, space-free
  ids, which is the shape of every id the system writes (ids produced by
  splitting on spaces, or `tag-<timestamp>`).  Where the raw attribute string
  itself matters (the CSS substring selector in `countTagInstances`) we
  reconstruct it with `String.intercalate " "`.
* JavaScript's falsy test on a string (`s ? … : …`, `a || b`) is modelled by
  comparison with the empty string (`jsOr`).
* ProseMirror joins adjacent text nodes whose mark sets are equal (all mark
  attributes equal) when a transaction is applied; `mergeAdjacent` models
  this normalization.  No function of the repository itself merges spans.
-/

set_option maxRecDepth 40000

/-- A tag record (`Tag` in `src/types`): `{id, name, color}`.  The optional
UI-only `isHighlighted` flag is never read by any of the embedded
operations and is omitted. -/
structure Tag where
  id : String
  name : String
  color : String
deriving DecidableEq, Repr

/-- The attributes of a `taggedSpan` mark (`src/lib/tiptap-extensions`,
`TaggedSpan.addAttributes`): `data-tag`, `class`, `style`, `title`.
`tagIds` is the token list of the space-joined `data-tag` attribute. -/
structure MarkAttrs where
  tagIds : List String
  className : String
  style : String
  title : String
deriving DecidableEq, Repr

/-- One text node of the document, with its `taggedSpan` mark if any. -/
structure Span where
  text : String
  mark : Option MarkAttrs
deriving DecidableEq, Repr

/-- A document is the ordered list of its text nodes. -/
abbrev Doc := List Span

/-- JavaScript `a || b` on strings: the empty string is falsy. -/
def jsOr (a b : String) : String :=
  if a = "" then b else a

/-- Embeds `tags.find((t) => t.id === id)` — registry lookup used throughout the
source. -/
def findTag (tags : List Tag) (id : String) : Option Tag :=
  tags.find? (fun t => t.id == id)

/-- Embeds `extractTagInfoFromElement` (tag-removal-utils.ts:19-22): reads the
element's `data-tag` attribute and splits it into ids
(`dataTag ? dataTag.split(" ").filter(Boolean) : []`).  On our
representation this is the stored token list, or `[]` when the element
carries no mark. -/
def extractTagInfo (sp : Span) : List String :=
  match sp.mark with
  | some m => m.tagIds
  | none => []

/-- Result record of `validateTagRemoval`. -/
structure ValidationResult where
  isValid : Bool
  warnings : List String
deriving DecidableEq, Repr

/-- Embeds `validateTagRemoval` (tag-removal-utils.ts:123-145), translated
branch by branch:
empty removal set → invalid; removal of all tags → warning only;
any requested id missing from the chunk → **invalid** with a
"Tags not found in this chunk" warning; otherwise valid. -/
def validateTagRemoval (tagIds tagsToRemove : List String) : ValidationResult :=
  if tagsToRemove.length = 0 then
    { isValid := false, warnings := ["No tags selected for removal"] }
  else
    let warnings :=
      if tagsToRemove.length = tagIds.length then
        ["Removing all tags will untagged this text chunk completely"]
      else []
    let invalidTags := tagsToRemove.filter (fun tagId => !(decide (tagId ∈ tagIds)))
    if invalidTags.length > 0 then
      { isValid := false,
        warnings := warnings ++
          ["Tags not found in this chunk: " ++ String.intercalate ", " invalidTags] }
    else
      { isValid := true, warnings := warnings }

/-- Output record of `generateUpdatedTagStyle`: `{style, title, class}`. -/
structure TagPresentation where
  style : String
  title : String
  className : String
deriving DecidableEq, Repr

/-- The single-tag inline style of `generateUpdatedTagStyle`
(tag-removal-utils.ts:162-176) after the source's
`.replace(/\s+/g, " ").trim()` whitespace normalization. -/
def singleTagStyle (color : String) : String :=
  "--tag-color: " ++ color ++ "; --tag-bg-color: " ++ color ++
  "25; background-color: var(--tag-bg-color); border-left: 3px solid var(--tag-color); border-right: 3px solid var(--tag-color); margin: 0; border-radius: 0; padding: 2px 4px; position: relative; cursor: pointer; transition: all 0.2s ease;"

/-- The multi-tag inline style of `generateUpdatedTagStyle`
(tag-removal-utils.ts:193-209) after whitespace normalization. -/
def multiTagStyle (color : String) : String :=
  "--inner-tag-color: " ++ color ++ "; --inner-tag-bg-color: " ++ color ++
  "30; background-color: var(--inner-tag-bg-color); border-top: 2px solid var(--inner-tag-color); border-bottom: 2px solid var(--inner-tag-color); margin: 0 2px; border-radius: 4px; box-shadow: 0 0 0 1px var(--inner-tag-color); padding: 2px 4px; position: relative; cursor: pointer; transition: all 0.2s ease; z-index: 10;"

/-- Embeds `tag?.name || `Tag ${tagId}`` — the per-id display name used in the
multi-tag branch of the deriver. -/
def tagDisplayName (tags : List Tag) (tagId : String) : String :=
  match findTag tags tagId with
  | some t => jsOr t.name ("Tag " ++ tagId)
  | none => "Tag " ++ tagId

/-- Embeds `generateUpdatedTagStyle` (tag-removal-utils.ts:150-213), the
Style/Label Deriver.  Empty list → empty descriptor.  A singleton list
whose id resolves in the registry → the single-tag ("outer-chunk")
descriptor.  Everything else — including a singleton whose id does *not*
resolve — falls through to the multi-tag ("inner-chunk") branch, whose
accent color is the last id's color (`lastTag?.color || "#3B82F6"`). -/
def generateUpdatedTagStyle (remainingTagIds : List String) (tags : List Tag) :
    TagPresentation :=
  match remainingTagIds with
  | [] => { style := "", title := "", className := "" }
  | _ =>
    let single? : Option TagPresentation :=
      if remainingTagIds.length = 1 then
        match findTag tags (remainingTagIds.headD "") with
        | some tag =>
          some { style := singleTagStyle tag.color,
                 title := "Tagged: " ++ tag.name,
                 className := "my-tag outer-chunk" }
        | none => none
      else none
    match single? with
    | some p => p
    | none =>
      let innerTagColor :=
        match findTag tags (remainingTagIds.getLastD "") with
        | some t => jsOr t.color "#3B82F6"
        | none => "#3B82F6"
      { style := multiTagStyle innerTagColor,
        title := "Tagged: " ++
          String.intercalate ", " (remainingTagIds.map (tagDisplayName tags)),
        className := "my-tag inner-chunk" }

/-- The substring test of `querySelectorAll('[data-tag*="id"]')`
(tag-removal-utils.ts:55): CSS `*=` matches elements whose attribute VALUE
contains the id as a substring (and, per the CSS spec, matches nothing for
the empty string).  A mark whose `data-tag` token list is empty renders
without the attribute (`renderHTML` drops falsy `data-tag`). -/
def attrSubstrMatch (sp : Span) (tagId : String) : Bool :=
  match sp.mark with
  | some m =>
    !(decide (m.tagIds = [])) && !(decide (tagId = "")) &&
      decide (tagId.toList <:+: (String.intercalate " " m.tagIds).toList)
  | none => false

/-- Embeds `countTagInstances` (tag-removal-utils.ts:54-57): the length of
`editorElement.querySelectorAll('[data-tag*="tagId"]')` — a substring
match on the attribute, NOT a token-membership test. -/
def countTagInstances (doc : Doc) (tagId : String) : Nat :=
  (doc.filter (fun sp => attrSubstrMatch sp tagId)).length

/-- Modelled from the spec: `usageCount(id, document)` — "scans the Span
Model and counts spans whose `tagIds` contains `id`" with string-equal
membership.  Comparison definition for claim C7; not code of the
repository (the repository's `countTagInstances` is substring-based). -/
def exactTagCount (doc : Doc) (tagId : String) : Nat :=
  (doc.filter (fun sp => decide (tagId ∈ extractTagInfo sp))).length

/-! ## Store operations (`src/stores/tagStore.ts`) -/

/-- The single-tag inline style built inline by `applyTagToSelection`
(tagStore.ts:325). -/
def applySingleStyle (color : String) : String :=
  "background-color: " ++ color ++ "25; border-bottom: 2px solid " ++ color ++
  "; border-left: 3px solid " ++ color ++
  "; padding: 2px 4px; margin: 0 1px; border-radius: 4px; position: relative; cursor: pointer; transition: all 0.2s ease;"

/-- One stop of the gradient built by `applyTagToSelection`
(tagStore.ts:307-314): `${color}40 ${(i*100)/n}%, ${color}40 ${((i+1)*100)/n}%`.
The source divides in floating point and interpolates the JS rendering of
the result; we render with natural division, which coincides with the JS
text whenever `n` divides the numerator — the only case any theorem below
evaluates (all concrete inputs use two colors: stops 0, 50, 100). -/
def gradientStop (color : String) (i n : Nat) : String :=
  color ++ "40 " ++ toString (i * 100 / n) ++ "%, " ++ color ++ "40 " ++
    toString ((i + 1) * 100 / n) ++ "%"

/-- The multi-tag gradient style built inline by `applyTagToSelection`
(tagStore.ts:307-320). -/
def applyMultiStyle (colors : List String) : String :=
  "background: linear-gradient(45deg, " ++
  String.intercalate ", "
    (colors.mapIdx (fun i c => gradientStop c i colors.length)) ++
  "); border-left: 3px solid " ++ colors.headD "" ++
  "; border-right: 3px solid " ++ colors.getLastD "" ++
  "; padding: 2px 4px; margin: 0 1px; border-radius: 4px; position: relative; cursor: pointer; transition: all 0.2s ease;"

/-- Embeds `applyTagToSelection` (tagStore.ts:269-342) acting on the selected
chunk.  The source reads the existing mark at the selection
(`resolve(from).marks()`), splits its `data-tag`; if the new tag id is
already present it returns without touching the editor (only closing the
dialog — in both branches `selectedText` is cleared and `showTagDialog`
set to false, so the caller observes no difference).  Otherwise it appends
the id, builds either the gradient multi-tag style (unknown ids contribute
`existingTag?.color || tag.color` and name `"Unknown"`) or the inline
single-tag style, and sets the mark with `class: "my-tag"`. -/
def applyTagToSelection (tag : Tag) (tags : List Tag) (chunk : Span) : Span :=
  let existingTagIds := extractTagInfo chunk
  if tag.id ∈ existingTagIds then chunk
  else
    let allTagIds := existingTagIds ++ [tag.id]
    let attrs : MarkAttrs :=
      if allTagIds.length > 1 then
        let colors := allTagIds.map (fun tagId =>
          match findTag tags tagId with
          | some t => jsOr t.color tag.color
          | none => tag.color)
        { tagIds := allTagIds,
          className := "my-tag",
          style := applyMultiStyle colors,
          title := "Tagged: " ++ String.intercalate ", "
            (allTagIds.map (fun tagId =>
              match findTag tags tagId with
              | some t => jsOr t.name "Unknown"
              | none => "Unknown")) }
      else
        { tagIds := allTagIds,
          className := "my-tag",
          style := applySingleStyle tag.color,
          title := "Tagged: " ++ tag.name }
    { chunk with mark := some attrs }

/-- Embeds `removeTagsFromChunk` (tagStore.ts:454-527) acting on the target
chunk.  Returns `none` where the source returns `false` without
dispatching a transaction (validation failure, or no `taggedSpan` mark at
the target position).  On success the mark over the chunk is replaced:
`data-tag` holds the surviving ids, `style` and `title` come from
`generateUpdatedTagStyle`, and `class` is the constant `"my-tag"`
(tagStore.ts:507) — NOT the deriver's class.  When no ids survive the
mark is removed and nothing is added. -/
def removeTagsFromChunk (tagIdsToRemove : List String) (chunk : Span)
    (tags : List Tag) : Option Span :=
  let currentTagIds := extractTagInfo chunk
  let validation := validateTagRemoval currentTagIds tagIdsToRemove
  if !validation.isValid then none
  else
    let remainingTagIds :=
      currentTagIds.filter (fun id => !(decide (id ∈ tagIdsToRemove)))
    match chunk.mark with
    | none => none
    | some _ =>
      if remainingTagIds.length > 0 then
        let p := generateUpdatedTagStyle remainingTagIds tags
        some { chunk with
               mark := some { tagIds := remainingTagIds, className := "my-tag",
                              style := p.style, title := p.title } }
      else
        some { chunk with mark := none }

/-- The per-node test of `removeTagsFromDocument` (tagStore.ts:545-566):
the node carries a `taggedSpan` mark with a truthy `data-tag` and at least
one of the ids to remove occurs in it. -/
def spanTargeted (tagIdsToRemove : List String) (sp : Span) : Bool :=
  match sp.mark with
  | some m =>
    !(decide (m.tagIds = [])) &&
      tagIdsToRemove.any (fun id => decide (id ∈ m.tagIds))
  | none => false

/-- The per-node rewrite of `removeTagsFromDocument` (tagStore.ts:545-587):
targeted nodes get the mark replaced by one holding the surviving ids with
`style`/`title` from `generateUpdatedTagStyle` and `class: "my-tag"`
(tagStore.ts:580), or removed entirely when no id survives; other nodes
are untouched. -/
def removeSpanTags (tagIdsToRemove : List String) (tags : List Tag)
    (sp : Span) : Span :=
  if spanTargeted tagIdsToRemove sp then
    match sp.mark with
    | some m =>
      let newTagIds := m.tagIds.filter (fun id => !(decide (id ∈ tagIdsToRemove)))
      if newTagIds.length > 0 then
        let p := generateUpdatedTagStyle newTagIds tags
        { sp with mark := some { tagIds := newTagIds, className := "my-tag",
                                 style := p.style, title := p.title } }
      else
        { sp with mark := none }
    | none => sp
  else sp

/-- ProseMirror's normalization of a dispatched transaction: adjacent text
nodes whose mark sets are EQUAL — all four mark attributes equal, not
merely the same tag-id set — are joined into one text node.  This is
behavior of the rendering library; no function of the repository merges
spans itself. -/
def mergeAdjacent : Doc → Doc
  | [] => []
  | a :: rest =>
    match mergeAdjacent rest with
    | [] => [a]
    | b :: rest2 =>
      if a.mark = b.mark then { text := a.text ++ b.text, mark := a.mark } :: rest2
      else a :: b :: rest2

/-- Result record of `removeTagsFromDocument`: the new document, the new
sidebar tag list, and the boolean the source returns. -/
structure DocRemovalResult where
  doc : Doc
  tags : List Tag
  hasChanges : Bool
deriving DecidableEq, Repr

/-- Embeds `removeTagsFromDocument` (tagStore.ts:529-604): rewrites every
targeted node (span-local, preserving distinctions between spans), and —
only when at least one node was targeted — unconditionally drops every id
of `tagIdsToRemove` from the sidebar tag list
(`setTags(prev => prev.filter(tag => !tagIdsToRemove.includes(tag.id)))`,
tagStore.ts:593).  When nothing is targeted neither the document nor the
tag list changes and `false` is returned. -/
def removeTagsFromDocument (tagIdsToRemove : List String) (doc : Doc)
    (tags : List Tag) : DocRemovalResult :=
  if doc.any (spanTargeted tagIdsToRemove) then
    { doc := mergeAdjacent (doc.map (removeSpanTags tagIdsToRemove tags)),
      tags := tags.filter (fun t => !(decide (t.id ∈ tagIdsToRemove))),
      hasChanges := true }
  else
    { doc := doc, tags := tags, hasChanges := false }

/-- Embeds `removeTagsFromChunk` lifted to the document: the target element is
the chunk at index `i`; on success the rewritten document is dispatched
(and normalized by ProseMirror). -/
def removeTagsFromChunkAt (tagIdsToRemove : List String) (doc : Doc)
    (i : Nat) (tags : List Tag) : Option Doc :=
  match doc.get? i with
  | none => none
  | some chunk =>
    (removeTagsFromChunk tagIdsToRemove chunk tags).map
      (fun c => mergeAdjacent (doc.set i c))

/-- Embeds `removeTagsFromChunk` at store level: the source function never calls
`setTags`/`removeTag`, so the sidebar tag list after the call is exactly
the tag list before it. -/
def removeTagsFromChunkStore (tagIdsToRemove : List String) (doc : Doc)
    (i : Nat) (tags : List Tag) : Option (Doc × List Tag) :=
  (removeTagsFromChunkAt tagIdsToRemove doc i tags).map (fun d => (d, tags))

/-- Embeds `applyTagToSelection` lifted to the document: the selection is the
chunk at index `i`. -/
def applyTagAt (tag : Tag) (tags : List Tag) (doc : Doc) (i : Nat) : Doc :=
  match doc.get? i with
  | none => doc
  | some chunk => mergeAdjacent (doc.set i (applyTagToSelection tag tags chunk))

/-- Embeds `createTag` (tagStore.ts:245-257), its core once a selection and an
editor are present: builds `{id: "tag-" + Date.now(), name, color}` with
no validation of `name` whatsoever, appends it to the tag list
(`addTag`), and returns it.  There is no failure path. -/
def createTag (name color : String) (now : Nat) (tags : List Tag) :
    Tag × List Tag :=
  let newTag : Tag := { id := "tag-" ++ toString now, name := name, color := color }
  (newTag, tags ++ [newTag])

/-- The deferred sidebar cleanup of the hook variant of
`removeTagsFromChunk` (useTagRemoval.ts:102-119): after the transaction,
every id of the removal set with zero remaining `querySelectorAll`
(substring) matches is dropped from the tag list. -/
def hookChunkCleanup (tagIdsToRemove : List String) (doc : Doc)
    (tags : List Tag) : List Tag :=
  let tagsToCleanup :=
    tagIdsToRemove.filter (fun id => decide (countTagInstances doc id = 0))
  if tagsToCleanup.length > 0 then
    tags.filter (fun t => !(decide (t.id ∈ tagsToCleanup)))
  else tags

/-! ## Helper lemmas -/

/-- The invariant ProseMirror maintains: no two adjacent text nodes carry
equal mark sets (equal on ALL attributes). -/
def NoAdjacentEqualMarks (doc : Doc) : Prop :=
  List.Chain' (fun a b => a.mark ≠ b.mark) doc

theorem applyTag_of_mem (tag : Tag) (tags : List Tag) (chunk : Span)
    (h : tag.id ∈ extractTagInfo chunk) :
    applyTagToSelection tag tags chunk = chunk := by
  simp [applyTagToSelection, h]

theorem extractTagInfo_applyTag (tag : Tag) (tags : List Tag) (chunk : Span)
    (h : tag.id ∉ extractTagInfo chunk) :
    extractTagInfo (applyTagToSelection tag tags chunk) =
      extractTagInfo chunk ++ [tag.id] := by
  simp only [applyTagToSelection, if_neg h]
  split <;> simp [extractTagInfo]

theorem validateTagRemoval_isValid_eq (cur rem : List String) :
    (validateTagRemoval cur rem).isValid =
      (!(decide (rem = [])) &&
        decide (rem.filter (fun tagId => !(decide (tagId ∈ cur))) = [])) := by
  unfold validateTagRemoval
  split
  · rename_i h
    simp [List.length_eq_zero.mp h]
  · rename_i h
    have hne : rem ≠ [] := fun he => h (by simp [he])
    split <;> rename_i hf <;>
        simp_all [List.length_pos, List.length_eq_zero] <;>
      (split <;> rename_i hg
       · have hnall : ¬ ∀ a ∈ rem, a ∈ cur := by
           rcases hg with ⟨x, hx1, hx2⟩
           intro hall
           exact hx2 (hall x hx1)
         simp [hnall]
       · push_neg at hg
         simpa using hg)

theorem validateTagRemoval_isValid (cur rem : List String) :
    (validateTagRemoval cur rem).isValid = true ↔
      rem ≠ [] ∧ ∀ id ∈ rem, id ∈ cur := by
  rw [validateTagRemoval_isValid_eq]
  simp [List.filter_eq_nil_iff]

theorem mergeAdjacent_cons (a : Span) (l : Doc) :
    ∃ t rest, mergeAdjacent (a :: l) = { text := t, mark := a.mark } :: rest := by
  cases h : mergeAdjacent l with
  | nil => exact ⟨a.text, [], by simp [mergeAdjacent, h]⟩
  | cons b rest2 =>
    by_cases hm : a.mark = b.mark
    · exact ⟨a.text ++ b.text, rest2, by simp [mergeAdjacent, h, hm]⟩
    · exact ⟨a.text, b :: rest2, by simp [mergeAdjacent, h, hm]⟩

theorem noAdjacent_mergeAdjacent (l : Doc) : NoAdjacentEqualMarks (mergeAdjacent l) := by
  induction l with
  | nil => simp [mergeAdjacent, NoAdjacentEqualMarks]
  | cons a rest ih =>
    cases h : mergeAdjacent rest with
    | nil => simp [mergeAdjacent, h, NoAdjacentEqualMarks]
    | cons b rest2 =>
      rw [h] at ih
      by_cases hm : a.mark = b.mark
      · have hstep : mergeAdjacent (a :: rest) =
            { text := a.text ++ b.text, mark := a.mark } :: rest2 := by
          simp [mergeAdjacent, h, hm]
        rw [NoAdjacentEqualMarks, hstep]
        rw [NoAdjacentEqualMarks] at ih
        rw [List.chain'_cons'] at ih ⊢
        refine ⟨?_, ih.2⟩
        intro x hx
        have hbx := ih.1 x hx
        simpa [hm] using hbx
      · have hstep : mergeAdjacent (a :: rest) = a :: b :: rest2 := by
          simp [mergeAdjacent, h, hm]
        rw [NoAdjacentEqualMarks, hstep, List.chain'_cons]
        exact ⟨hm, ih⟩

theorem mergeAdjacent_mark_mem (l : Doc) (sp : Span) (h : sp ∈ mergeAdjacent l) :
    ∃ sp2 ∈ l, sp.mark = sp2.mark := by
  induction l generalizing sp with
  | nil => simp [mergeAdjacent] at h
  | cons a rest ih =>
    cases hme : mergeAdjacent rest with
    | nil =>
      have hstep : mergeAdjacent (a :: rest) = [a] := by simp [mergeAdjacent, hme]
      rw [hstep] at h
      simp at h
      exact ⟨a, by simp, by rw [h]⟩
    | cons b rest2 =>
      by_cases hm : a.mark = b.mark
      · have hstep : mergeAdjacent (a :: rest) =
            { text := a.text ++ b.text, mark := a.mark } :: rest2 := by
          simp [mergeAdjacent, hme, hm]
        rw [hstep] at h
        rcases List.mem_cons.mp h with he | hmem
        · exact ⟨a, by simp, by rw [he]⟩
        · have hin : sp ∈ mergeAdjacent rest := by
            rw [hme]
            exact List.mem_cons_of_mem _ hmem
          rcases ih sp hin with ⟨sp2, hsp2, hmk⟩
          exact ⟨sp2, by simp [hsp2], hmk⟩
      · have hstep : mergeAdjacent (a :: rest) = a :: b :: rest2 := by
          simp [mergeAdjacent, hme, hm]
        rw [hstep] at h
        rcases List.mem_cons.mp h with he | hmem
        · exact ⟨a, by simp, by rw [he]⟩
        · have hin : sp ∈ mergeAdjacent rest := by
            rw [hme]
            exact hmem
          rcases ih sp hin with ⟨sp2, hsp2, hmk⟩
          exact ⟨sp2, by simp [hsp2], hmk⟩

theorem extractTagInfo_removeSpanTags (rem : List String) (tags : List Tag) (sp : Span) :
    extractTagInfo (removeSpanTags rem tags sp) =
      (extractTagInfo sp).filter (fun id => !(decide (id ∈ rem))) := by
  obtain ⟨tx, mk⟩ := sp
  cases mk with
  | none => simp [removeSpanTags, extractTagInfo, spanTargeted]
  | some m =>
    by_cases ht : spanTargeted rem { text := tx, mark := some m }
    · simp only [removeSpanTags, if_pos ht]
      split
      · rename_i hlen
        simp [extractTagInfo]
      · rename_i hlen
        have hempty : m.tagIds.filter (fun id => !(decide (id ∈ rem))) = [] := by
          cases hq : m.tagIds.filter (fun id => !(decide (id ∈ rem))) with
          | nil => rfl
          | cons x xs =>
            rw [hq] at hlen
            simp at hlen
        simp [extractTagInfo, hempty]
    · simp only [removeSpanTags, if_neg ht]
      unfold spanTargeted at ht
      simp only [Bool.and_eq_true, Bool.not_eq_true', decide_eq_false_iff_not,
        List.any_eq_true, decide_eq_true_eq, not_and, not_exists] at ht
      by_cases hnil : m.tagIds = []
      · simp [extractTagInfo, hnil]
      · have hnone : ∀ a ∈ m.tagIds, a ∉ rem := fun a ha hra => ht hnil a hra ha
        have hid : m.tagIds.filter (fun id => !(decide (id ∈ rem))) = m.tagIds :=
          List.filter_eq_self.mpr (fun a ha => by simpa using hnone a ha)
        simp [extractTagInfo, hid]

theorem removeTagsFromChunk_spec (rem : List String) (chunk : Span) (tags : List Tag)
    (c' : Span) (h : removeTagsFromChunk rem chunk tags = some c') :
    extractTagInfo c' = (extractTagInfo chunk).filter (fun id => !(decide (id ∈ rem)))
    ∧ c'.text = chunk.text
    ∧ (∀ m, c'.mark = some m →
        m.tagIds = (extractTagInfo chunk).filter (fun id => !(decide (id ∈ rem)))
        ∧ m.className = "my-tag"
        ∧ m.style = (generateUpdatedTagStyle m.tagIds tags).style
        ∧ m.title = (generateUpdatedTagStyle m.tagIds tags).title)
    ∧ ((extractTagInfo chunk).filter (fun id => !(decide (id ∈ rem))) = [] →
        c'.mark = none) := by
  simp only [removeTagsFromChunk] at h
  split at h
  · exact absurd h (by simp)
  · split at h
    · exact absurd h (by simp)
    · split at h
      · rename_i hmark hlen
        rw [Option.some.injEq] at h
        subst h
        refine ⟨by simp [extractTagInfo], rfl, ?_, ?_⟩
        · intro m hm
          simp only [Option.some.injEq] at hm
          subst hm
          simp
        · intro hempty
          rw [hempty] at hlen
          simp at hlen
      · rename_i hmark hlen
        rw [Option.some.injEq] at h
        subst h
        have hempty : (extractTagInfo chunk).filter (fun id => !(decide (id ∈ rem))) = [] := by
          cases hq : (extractTagInfo chunk).filter (fun id => !(decide (id ∈ rem))) with
          | nil => rfl
          | cons x xs =>
            rw [hq] at hlen
            simp at hlen
        refine ⟨by simpa [extractTagInfo] using hempty.symm, rfl, ?_, fun _ => rfl⟩
        intro m hm
        simp at hm

/-! ## Claim theorems -/

/-- Claim C1, as stated — counterexample.  Removing `["B"]` from a chunk tagged
`["A","B"]` (registry contains `A`) stores the mark with class `"my-tag"`
(tagStore.ts:507), while the Style/Label Deriver produces class
`"my-tag outer-chunk"` for the remaining ids: the presentation stored on
the chunk is NOT exactly the deriver's output. -/
theorem c1_counterexample :
    ((removeTagsFromChunk ["B"]
        { text := "x", mark := some { tagIds := ["A", "B"], className := "my-tag",
                                      style := "s", title := "t" } }
        [{ id := "A", name := "NameA", color := "#ff0000" }]).map
      (fun c => c.mark.map MarkAttrs.className)) = some (some "my-tag")
    ∧ (generateUpdatedTagStyle ["A"]
        [{ id := "A", name := "NameA", color := "#ff0000" }]).className =
        "my-tag outer-chunk"
    ∧ ("my-tag" : String) ≠ "my-tag outer-chunk" := by
  decide

/-- Claim C1 (amended).  For every chunk-scope removal that succeeds, the
chunk's tag ids become `before` minus `tagIdsToRemove` in order, the stored
`style` and `title` equal exactly the Style/Label Deriver's `style` and
`title` for the remaining ids and the current registry, the stored class is
the constant `"my-tag"` (not the deriver's class), and the mark is removed
entirely (presentation cleared) when no id survives. -/
theorem c1_chunk_removal_conservation (rem : List String) (chunk : Span)
    (tags : List Tag) (c' : Span) (h : removeTagsFromChunk rem chunk tags = some c') :
    extractTagInfo c' = (extractTagInfo chunk).filter (fun id => !(decide (id ∈ rem)))
    ∧ (∀ m, c'.mark = some m →
        m.style = (generateUpdatedTagStyle (extractTagInfo c') tags).style
        ∧ m.title = (generateUpdatedTagStyle (extractTagInfo c') tags).title
        ∧ m.className = "my-tag")
    ∧ ((extractTagInfo chunk).filter (fun id => !(decide (id ∈ rem))) = [] →
        c'.mark = none) := by
  obtain ⟨h1, h2, h3, h4⟩ := removeTagsFromChunk_spec rem chunk tags c' h
  refine ⟨h1, ?_, h4⟩
  intro m hm
  obtain ⟨hm1, hm2, hm3, hm4⟩ := h3 m hm
  have he : extractTagInfo c' = m.tagIds := by
    simp [extractTagInfo, hm]
  rw [he]
  exact ⟨hm3, hm4, hm2⟩

/-- Witness for `c1_chunk_removal_conservation`: removing both tags of a
chunk tagged `["A","B"]` succeeds, leaves no surviving ids and clears the
mark. -/
theorem c1_chunk_removal_conservation_witness :
    removeTagsFromChunk ["A", "B"]
      { text := "x", mark := some { tagIds := ["A", "B"], className := "my-tag",
                                    style := "s", title := "t" } } []
      = some { text := "x", mark := none }
    ∧ extractTagInfo ({ text := "x", mark := none } : Span) =
        (["A", "B"].filter (fun id => !(decide (id ∈ (["A", "B"] : List String)))))
    ∧ ({ text := "x", mark := none } : Span).mark = none := by
  have h : removeTagsFromChunk ["A", "B"]
      { text := "x", mark := some { tagIds := ["A", "B"], className := "my-tag",
                                    style := "s", title := "t" } } []
      = some { text := "x", mark := none } := by decide
  have hc := c1_chunk_removal_conservation ["A", "B"]
    { text := "x", mark := some { tagIds := ["A", "B"], className := "my-tag",
                                  style := "s", title := "t" } } [] _ h
  exact ⟨h, by decide, hc.2.2 (by decide)⟩

/-- Claim C5, as stated — counterexample.  A removal set containing an id not
present on the chunk (`["A","B"]` against a chunk tagged `["A"]`) is a HARD
failure: `validateTagRemoval` reports `isValid: false` (with the
"Tags not found" warning) and `removeTagsFromChunk` returns `none` —
nothing is removed, not even the intersection. -/
theorem c5_counterexample :
    validateTagRemoval ["A"] ["A", "B"] =
      { isValid := false, warnings := ["Tags not found in this chunk: B"] }
    ∧ removeTagsFromChunk ["A", "B"]
        { text := "x", mark := some { tagIds := ["A"], className := "my-tag",
                                      style := "s", title := "t" } } []
        = none := by
  decide

/-- Claim C5 (amended).  A chunk-scope removal whose removal set contains an
id not present in the chunk's current tag ids is rejected as invalid: the
validation fails, a warning lists exactly the requested ids that were not
found, and the mutation is not applied (`removeTagsFromChunk` returns
`false` and changes nothing). -/
theorem c5_unknown_ids_reject (rem : List String) (chunk : Span) (tags : List Tag)
    (id : String) (hmem : id ∈ rem) (hnot : id ∉ extractTagInfo chunk) :
    (validateTagRemoval (extractTagInfo chunk) rem).isValid = false
    ∧ ("Tags not found in this chunk: " ++ String.intercalate ", "
        (rem.filter (fun t => !(decide (t ∈ extractTagInfo chunk))))) ∈
        (validateTagRemoval (extractTagInfo chunk) rem).warnings
    ∧ removeTagsFromChunk rem chunk tags = none := by
  have hne : rem ≠ [] := List.ne_nil_of_mem hmem
  have hin : id ∈ rem.filter (fun t => !(decide (t ∈ extractTagInfo chunk))) :=
    List.mem_filter.mpr ⟨hmem, by simpa using hnot⟩
  have hfne : rem.filter (fun t => !(decide (t ∈ extractTagInfo chunk))) ≠ [] :=
    List.ne_nil_of_mem hin
  have hvalid : (validateTagRemoval (extractTagInfo chunk) rem).isValid = false := by
    rw [validateTagRemoval_isValid_eq]
    simp [hfne]
  refine ⟨hvalid, ?_, ?_⟩
  · have hlen : 0 < (rem.filter (fun t => !(decide (t ∈ extractTagInfo chunk)))).length :=
      List.length_pos.mpr hfne
    have h0 : ¬ rem.length = 0 := fun h => hne (List.length_eq_zero.mp h)
    simp only [validateTagRemoval, if_neg h0]
    rw [if_pos hlen]
    simp
  · simp only [removeTagsFromChunk]
    rw [hvalid]
    simp

/-- Witness for `c5_unknown_ids_reject`: removing `["A","B"]` from a chunk
tagged `["A"]` — `"B"` is requested but not present. -/
theorem c5_unknown_ids_reject_witness :
    ("B" ∈ (["A", "B"] : List String))
    ∧ ("B" ∉ extractTagInfo
        ({ text := "x", mark := some { tagIds := ["A"], className := "my-tag", style := "s", title := "t" } } : Span))
    ∧ (validateTagRemoval
        (extractTagInfo
          ({ text := "x", mark := some { tagIds := ["A"], className := "my-tag", style := "s", title := "t" } } : Span))
        ["A", "B"]).isValid = false
    ∧ removeTagsFromChunk ["A", "B"]
        { text := "x", mark := some { tagIds := ["A"], className := "my-tag", style := "s", title := "t" } }
        [] = none := by
  have h := c5_unknown_ids_reject ["A", "B"]
    { text := "x", mark := some { tagIds := ["A"], className := "my-tag", style := "s", title := "t" } }
    [] "B" (by decide) (by decide)
  exact ⟨by decide, by decide, h.1, h.2.2⟩

/-- Claim C6.  Applying a tag id not already present appends it at the end of
the existing sequence, preserving the existing order; in particular, for a
span previously tagged `["A"]` (registry NameA/NameB), applying `"B"`
yields tag ids `["A","B"]` and label `"Tagged: NameA, NameB"` in that
order. -/
theorem c6_apply_appends (tag : Tag) (tags : List Tag) (chunk : Span)
    (h : tag.id ∉ extractTagInfo chunk) :
    extractTagInfo (applyTagToSelection tag tags chunk) =
      extractTagInfo chunk ++ [tag.id]
    ∧ ((applyTagToSelection
          { id := "B", name := "NameB", color := "#00ff00" }
          [{ id := "A", name := "NameA", color := "#ff0000" },
           { id := "B", name := "NameB", color := "#00ff00" }]
          { text := "x", mark := some { tagIds := ["A"], className := "my-tag", style := "s", title := "Tagged: NameA" } }).mark.map
        MarkAttrs.tagIds = some ["A", "B"])
    ∧ ((applyTagToSelection
          { id := "B", name := "NameB", color := "#00ff00" }
          [{ id := "A", name := "NameA", color := "#ff0000" },
           { id := "B", name := "NameB", color := "#00ff00" }]
          { text := "x", mark := some { tagIds := ["A"], className := "my-tag", style := "s", title := "Tagged: NameA" } }).mark.map
        MarkAttrs.title = some "Tagged: NameA, NameB") := by
  refine ⟨extractTagInfo_applyTag tag tags chunk h, by decide, by decide⟩

/-- Witness for `c6_apply_appends`: applying `"B"` to a chunk tagged
`["A"]`. -/
theorem c6_apply_appends_witness :
    (({ id := "B", name := "NameB", color := "#00ff00" } : Tag).id ∉
      extractTagInfo ({ text := "x", mark := some { tagIds := ["A"], className := "my-tag", style := "s", title := "Tagged: NameA" } } : Span))
    ∧ extractTagInfo (applyTagToSelection
        { id := "B", name := "NameB", color := "#00ff00" }
        [{ id := "A", name := "NameA", color := "#ff0000" },
         { id := "B", name := "NameB", color := "#00ff00" }]
        { text := "x", mark := some { tagIds := ["A"], className := "my-tag", style := "s", title := "Tagged: NameA" } }) = ["A", "B"] := by
  have h := c6_apply_appends
    { id := "B", name := "NameB", color := "#00ff00" }
    [{ id := "A", name := "NameA", color := "#ff0000" },
     { id := "B", name := "NameB", color := "#00ff00" }]
    { text := "x", mark := some { tagIds := ["A"], className := "my-tag", style := "s", title := "Tagged: NameA" } }
    (by decide)
  exact ⟨by decide, by rw [h.1]; decide⟩

/-- Claim C10.  Every removal — the per-span rewrite of document scope and
the chunk-scope removal — leaves each affected span's surviving tag ids as
the original sequence with the removed ids filtered out: an order-preserving
subsequence of the original. -/
theorem c10_removal_preserves_survivor_order :
    (∀ (rem : List String) (tags : List Tag) (sp : Span),
        extractTagInfo (removeSpanTags rem tags sp) =
          (extractTagInfo sp).filter (fun id => !(decide (id ∈ rem)))
        ∧ (extractTagInfo (removeSpanTags rem tags sp)).Sublist (extractTagInfo sp))
    ∧ (∀ (rem : List String) (chunk : Span) (tags : List Tag) (c' : Span),
        removeTagsFromChunk rem chunk tags = some c' →
          extractTagInfo c' =
            (extractTagInfo chunk).filter (fun id => !(decide (id ∈ rem)))
          ∧ (extractTagInfo c').Sublist (extractTagInfo chunk)) := by
  constructor
  · intro rem tags sp
    have h := extractTagInfo_removeSpanTags rem tags sp
    refine ⟨h, ?_⟩
    rw [h]
    exact List.filter_sublist _
  · intro rem chunk tags c' h
    have hs := (removeTagsFromChunk_spec rem chunk tags c' h).1
    refine ⟨hs, ?_⟩
    rw [hs]
    exact List.filter_sublist _

/-- Witness for `c10_removal_preserves_survivor_order`: removing `["B"]`
from a span tagged `["A","B","C"]` at document scope keeps `["A","C"]` in
order, and a successful chunk removal of both tags of `["A","B"]` leaves
the empty sequence. -/
theorem c10_removal_preserves_survivor_order_witness :
    extractTagInfo (removeSpanTags ["B"] []
      { text := "x", mark := some { tagIds := ["A", "B", "C"], className := "my-tag", style := "s", title := "t" } }) = ["A", "C"]
    ∧ removeTagsFromChunk ["A", "B"]
        { text := "y", mark := some { tagIds := ["A", "B"], className := "my-tag", style := "s", title := "t" } }
        [] = some { text := "y", mark := none }
    ∧ (extractTagInfo ({ text := "y", mark := none } : Span)).Sublist ["A", "B"] := by
  have hdoc := (c10_removal_preserves_survivor_order.1 ["B"] []
    { text := "x", mark := some { tagIds := ["A", "B", "C"], className := "my-tag", style := "s", title := "t" } }).1
  have h : removeTagsFromChunk ["A", "B"]
      { text := "y", mark := some { tagIds := ["A", "B"], className := "my-tag", style := "s", title := "t" } }
      [] = some { text := "y", mark := none } := by decide
  have hch := (c10_removal_preserves_survivor_order.2 ["A", "B"]
    { text := "y", mark := some { tagIds := ["A", "B"], className := "my-tag", style := "s", title := "t" } }
    [] { text := "y", mark := none } h).2
  exact ⟨by rw [hdoc]; decide, h, hch⟩

/-- Claim C2, as stated — counterexample.  There is no duplicate-apply signal:
`applyTagToSelection` returns nothing in either branch (in both it only
clears the selection and closes the dialog), and the resulting span state
of a DUPLICATE apply (tag `"A"` onto a span already tagged `["A"]`)
coincides exactly with that of a SUCCESSFUL fresh apply (tag `"A"` onto an
untagged span) — the caller cannot observe which case occurred. -/
theorem c2_counterexample :
    ("A" ∈ extractTagInfo
      ({ text := "x", mark := some { tagIds := ["A"], className := "my-tag", style := applySingleStyle "#ff0000", title := "Tagged: NameA" } } : Span))
    ∧ ("A" ∉ extractTagInfo ({ text := "x", mark := none } : Span))
    ∧ applyTagToSelection { id := "A", name := "NameA", color := "#ff0000" }
        [{ id := "A", name := "NameA", color := "#ff0000" }]
        { text := "x", mark := some { tagIds := ["A"], className := "my-tag", style := applySingleStyle "#ff0000", title := "Tagged: NameA" } }
      = applyTagToSelection { id := "A", name := "NameA", color := "#ff0000" }
        [{ id := "A", name := "NameA", color := "#ff0000" }]
        { text := "x", mark := none } := by
  decide

/-- Claim C2 (amended).  ApplyTag is idempotent: applying the same tag to the
same chunk twice yields the same span state as applying it once, and when
the tag id is already present the operation is a no-op that leaves the
span unchanged (no duplicate-apply signal is returned to the caller — the
source returns nothing in every branch). -/
theorem c2_apply_idempotent (tag : Tag) (tags : List Tag) (chunk : Span) :
    applyTagToSelection tag tags (applyTagToSelection tag tags chunk) =
      applyTagToSelection tag tags chunk
    ∧ (tag.id ∈ extractTagInfo chunk → applyTagToSelection tag tags chunk = chunk) := by
  constructor
  · by_cases h : tag.id ∈ extractTagInfo chunk
    · rw [applyTag_of_mem tag tags chunk h, applyTag_of_mem tag tags chunk h]
    · have hmem : tag.id ∈ extractTagInfo (applyTagToSelection tag tags chunk) := by
        rw [extractTagInfo_applyTag tag tags chunk h]
        simp
      exact applyTag_of_mem tag tags _ hmem
  · intro h
    exact applyTag_of_mem tag tags chunk h

/-- Witness for `c2_apply_idempotent`: applying `"A"` to a span already
tagged `["A"]`. -/
theorem c2_apply_idempotent_witness :
    ("A" ∈ extractTagInfo
      ({ text := "x", mark := some { tagIds := ["A"], className := "my-tag", style := "s", title := "t" } } : Span))
    ∧ applyTagToSelection { id := "A", name := "NameA", color := "#ff0000" } []
        { text := "x", mark := some { tagIds := ["A"], className := "my-tag", style := "s", title := "t" } }
      = { text := "x", mark := some { tagIds := ["A"], className := "my-tag", style := "s", title := "t" } } := by
  refine ⟨by decide, ?_⟩
  exact (c2_apply_idempotent { id := "A", name := "NameA", color := "#ff0000" } []
    { text := "x", mark := some { tagIds := ["A"], className := "my-tag", style := "s", title := "t" } }).2
    (by decide)

/-- Claim C9, as stated — counterexample.  A length-one tag-id sequence whose
id does not resolve in the registry does NOT get the single-tag
descriptor: `generateUpdatedTagStyle ["X"] []` falls through to the
multi-tag branch (class `"my-tag inner-chunk"`, default accent color,
placeholder name). -/
theorem c9_counterexample :
    generateUpdatedTagStyle ["X"] [] =
      { style := multiTagStyle "#3B82F6", title := "Tagged: Tag X",
        className := "my-tag inner-chunk" }
    ∧ ("my-tag inner-chunk" : String) ≠ "my-tag outer-chunk" := by
  decide

/-- Claim C9 (amended).  For a length-one tag-id sequence whose id resolves
in the registry, the deriver returns the single-tag descriptor keyed by
that tag's color with label `"Tagged: {name}"`; a length-one sequence whose
id does NOT resolve falls through to the multi-tag descriptor with the
default accent color and the placeholder name. -/
theorem c9_single_descriptor (id : String) (tags : List Tag) :
    (∀ tag, findTag tags id = some tag →
        generateUpdatedTagStyle [id] tags =
          { style := singleTagStyle tag.color, title := "Tagged: " ++ tag.name,
            className := "my-tag outer-chunk" })
    ∧ (findTag tags id = none →
        generateUpdatedTagStyle [id] tags =
          { style := multiTagStyle "#3B82F6",
            title := "Tagged: " ++ String.intercalate ", " ([id].map (tagDisplayName tags)),
            className := "my-tag inner-chunk" }) := by
  constructor
  · intro tag h
    simp [generateUpdatedTagStyle, h]
  · intro h
    simp [generateUpdatedTagStyle, h]

/-- Witness for `c9_single_descriptor`: id `"A"` resolving to NameA, and
id `"X"` resolving to nothing. -/
theorem c9_single_descriptor_witness :
    findTag [{ id := "A", name := "NameA", color := "#ff0000" }] "A" =
      some { id := "A", name := "NameA", color := "#ff0000" }
    ∧ generateUpdatedTagStyle ["A"] [{ id := "A", name := "NameA", color := "#ff0000" }] =
      { style := singleTagStyle "#ff0000", title := "Tagged: NameA",
        className := "my-tag outer-chunk" }
    ∧ findTag [] "X" = none
    ∧ (generateUpdatedTagStyle ["X"] []).className = "my-tag inner-chunk" := by
  refine ⟨by decide, ?_, by decide, ?_⟩
  · exact (c9_single_descriptor "A" [{ id := "A", name := "NameA", color := "#ff0000" }]).1
      { id := "A", name := "NameA", color := "#ff0000" } (by decide)
  · rw [(c9_single_descriptor "X" []).2 (by decide)]

/-- Claim C8, as stated — counterexample.  `createTag` with an empty name
does NOT fail: it stores a tag with name `""` (there is no name validation
and no `InvalidTagNameError` anywhere in the repository).  Moreover the id
`tag-<timestamp>` is not fresh: creating at timestamp 7 while a tag with
id `"tag-7"` exists reuses that exact id. -/
theorem c8_counterexample :
    (createTag "" "#000000" 7 []).2 = [{ id := "tag-7", name := "", color := "#000000" }]
    ∧ (createTag "x" "#000000" 7 [{ id := "tag-7", name := "a", color := "#b" }]).1.id = "tag-7"
    ∧ "tag-7" ∈ ([{ id := "tag-7", name := "a", color := "#b" }] : List Tag).map Tag.id := by
  decide

/-- Claim C8 (amended).  `createTag` never fails and performs no name
validation (the creation dialog separately refuses to submit a
whitespace-only name, silently): it stores the given name and color
verbatim under id `"tag-" + timestamp` and appends the tag to the
registry; the new id is distinct from existing ids exactly when no
existing tag already carries `"tag-" + timestamp`. -/
theorem c8_createTag_never_fails (name color : String) (now : Nat) (tags : List Tag) :
    (createTag name color now tags).1 =
      { id := "tag-" ++ toString now, name := name, color := color }
    ∧ (createTag name color now tags).2 =
        tags ++ [{ id := "tag-" ++ toString now, name := name, color := color }]
    ∧ ((∀ t ∈ tags, t.id ≠ "tag-" ++ toString now) →
        (createTag name color now tags).1.id ∉ tags.map Tag.id) := by
  refine ⟨rfl, rfl, ?_⟩
  intro h hmem
  rcases List.mem_map.mp hmem with ⟨t, ht, hid⟩
  exact h t ht hid

/-- Witness for `c8_createTag_never_fails`: creating with the empty name at
timestamp 3 over an empty registry. -/
theorem c8_createTag_never_fails_witness :
    (createTag "" "#000000" 3 []).1 = { id := "tag-3", name := "", color := "#000000" }
    ∧ (createTag "" "#000000" 3 []).1.id ∉ ([] : List Tag).map Tag.id := by
  have h := c8_createTag_never_fails "" "#000000" 3 []
  exact ⟨by decide, h.2.2 (by simp)⟩

/-- Claim C7, as stated — counterexample.  `countTagInstances` uses the CSS
substring selector `[data-tag*="id"]`: a document whose only span carries
the single tag id `"AB"` counts ONE instance of `"A"`, while the number of
spans whose tag-id list contains `"A"` with string-equal membership is
zero. -/
theorem c7_counterexample :
    countTagInstances
      [{ text := "x", mark := some { tagIds := ["AB"], className := "my-tag", style := "", title := "" } }] "A" = 1
    ∧ exactTagCount
      [{ text := "x", mark := some { tagIds := ["AB"], className := "my-tag", style := "", title := "" } }] "A" = 0
    ∧ (1 : Nat) ≠ 0 := by
  decide

/-- Claim C7 (amended).  `usageCount` counts spans whose `data-tag` attribute
contains the id as a SUBSTRING (the CSS `*=` selector), not string-equal
membership; it agrees with the string-equal membership count exactly on
documents where, for every span, the substring test and the membership
test coincide. -/
theorem c7_usage_count_substring (doc : Doc) (tagId : String)
    (h : ∀ sp ∈ doc, attrSubstrMatch sp tagId = decide (tagId ∈ extractTagInfo sp)) :
    countTagInstances doc tagId = exactTagCount doc tagId := by
  unfold countTagInstances exactTagCount
  rw [List.filter_congr h]

/-- Witness for `c7_usage_count_substring`: a one-span document tagged
`["A"]`, queried for `"A"`. -/
theorem c7_usage_count_substring_witness :
    (∀ sp ∈ ([{ text := "x", mark := some { tagIds := ["A"], className := "my-tag", style := "", title := "" } }] : Doc),
        attrSubstrMatch sp "A" = decide ("A" ∈ extractTagInfo sp))
    ∧ countTagInstances
        [{ text := "x", mark := some { tagIds := ["A"], className := "my-tag", style := "", title := "" } }] "A"
      = exactTagCount
        [{ text := "x", mark := some { tagIds := ["A"], className := "my-tag", style := "", title := "" } }] "A" := by
  refine ⟨by decide, c7_usage_count_substring _ _ (by decide)⟩

/-- Claim C3, as stated — counterexample.  The store's chunk-scope
`removeTagsFromChunk` never touches the registry: removing the ONLY
occurrence of `"B"` from a chunk succeeds, `"B"`'s usage count drops to
zero, yet the tag list returned by the store still contains `B` — the
zero-usage id is not removed from the Registry. -/
theorem c3_counterexample :
    removeTagsFromChunkStore ["B"]
      [{ text := "x", mark := some { tagIds := ["B"], className := "my-tag", style := "s", title := "t" } }]
      0 [{ id := "B", name := "NameB", color := "#00ff00" }]
      = some ([{ text := "x", mark := none }],
              [{ id := "B", name := "NameB", color := "#00ff00" }])
    ∧ exactTagCount [{ text := "x", mark := none }] "B" = 0 := by
  decide

/-- Claim C3 (amended).  Document-scope removal (when it changes anything)
drops every id of the removal set from the registry — consistently, since
after the mutation no span references any of them any more — and keeps
every tag whose id is not in the removal set.  The store's chunk-scope
removal, by contrast, leaves the registry exactly as it was, regardless of
usage counts (zero-usage pruning after chunk removals happens only in the
deferred re-scan of the hook variant and of `removeTagFromTextChunk`). -/
theorem c3_registry_cleanup_after_removal (rem : List String) (doc : Doc) (i : Nat)
    (tags : List Tag)
    (hch : (removeTagsFromDocument rem doc tags).hasChanges = true) :
    ((removeTagsFromDocument rem doc tags).tags =
        tags.filter (fun t => !(decide (t.id ∈ rem)))
     ∧ (∀ sp ∈ (removeTagsFromDocument rem doc tags).doc, ∀ id ∈ rem,
          id ∉ extractTagInfo sp)
     ∧ (∀ t ∈ tags, t.id ∉ rem → t ∈ (removeTagsFromDocument rem doc tags).tags))
    ∧ (∀ p, removeTagsFromChunkStore rem doc i tags = some p → p.2 = tags) := by
  constructor
  · by_cases hval : doc.any (spanTargeted rem) = true
    · have heq : removeTagsFromDocument rem doc tags =
          { doc := mergeAdjacent (doc.map (removeSpanTags rem tags)),
            tags := tags.filter (fun t => !(decide (t.id ∈ rem))),
            hasChanges := true } := by
        simp [removeTagsFromDocument, hval]
      rw [heq]
      refine ⟨rfl, ?_, ?_⟩
      · intro sp hsp id hid
        rcases mergeAdjacent_mark_mem _ _ hsp with ⟨sp2, hsp2, hmk⟩
        rcases List.mem_map.mp hsp2 with ⟨sp0, hsp0, hf⟩
        have hext : extractTagInfo sp = extractTagInfo (removeSpanTags rem tags sp0) := by
          unfold extractTagInfo
          rw [hmk, hf]
        rw [hext, extractTagInfo_removeSpanTags]
        intro hmem
        rcases List.mem_filter.mp hmem with ⟨-, hdec⟩
        simp at hdec
        exact hdec hid
      · intro t ht hnot
        exact List.mem_filter.mpr ⟨ht, by simpa using hnot⟩
    · exfalso
      have hfalse : (removeTagsFromDocument rem doc tags).hasChanges = false := by
        simp [removeTagsFromDocument, hval]
      exact absurd (hfalse.symm.trans hch) (by simp)
  · intro p hp
    unfold removeTagsFromChunkStore at hp
    rcases Option.map_eq_some'.mp hp with ⟨d, hd, hpd⟩
    rw [← hpd]

/-- Witness for `c3_registry_cleanup_after_removal`: removing `["B"]` from
a one-span document tagged `["B"]` whose registry holds only `B`. -/
theorem c3_registry_cleanup_after_removal_witness :
    (removeTagsFromDocument ["B"]
      [{ text := "x", mark := some { tagIds := ["B"], className := "my-tag", style := "s", title := "t" } }]
      [{ id := "B", name := "NameB", color := "#00ff00" }]).hasChanges = true
    ∧ (removeTagsFromDocument ["B"]
      [{ text := "x", mark := some { tagIds := ["B"], className := "my-tag", style := "s", title := "t" } }]
      [{ id := "B", name := "NameB", color := "#00ff00" }]).tags =
        ([{ id := "B", name := "NameB", color := "#00ff00" }] : List Tag).filter
          (fun t => !(decide (t.id ∈ (["B"] : List String)))) := by
  refine ⟨by decide, ?_⟩
  exact (c3_registry_cleanup_after_removal ["B"]
    [{ text := "x", mark := some { tagIds := ["B"], className := "my-tag", style := "s", title := "t" } }]
    0 [{ id := "B", name := "NameB", color := "#00ff00" }] (by decide)).1.1

/-- Claim C4, as stated — counterexample.  A reachable operation sequence
producing two ADJACENT spans with IDENTICAL tag-id sets that are not
merged: apply `"A"` then `"B"` to the second (untagged) chunk — its mark
gets the gradient multi-tag style built by `applyTagToSelection` — then
remove `"C"` from the first chunk tagged `["A","B","C"]` — its mark gets
the bordered multi-tag style of `generateUpdatedTagStyle`.  Both chunks
now carry exactly `["A","B"]`, but their style attributes differ, so the
rendering layer does not join them: the resulting document is two adjacent
spans with identical tag-id sets. -/
theorem c4_counterexample :
    ((removeTagsFromChunkAt ["C"]
        (applyTagAt { id := "B", name := "NameB", color := "#00ff00" }
          [{ id := "A", name := "NameA", color := "#ff0000" },
           { id := "B", name := "NameB", color := "#00ff00" },
           { id := "C", name := "NameC", color := "#0000ff" }]
          (applyTagAt { id := "A", name := "NameA", color := "#ff0000" }
            [{ id := "A", name := "NameA", color := "#ff0000" },
             { id := "B", name := "NameB", color := "#00ff00" },
             { id := "C", name := "NameC", color := "#0000ff" }]
            [{ text := "left", mark := some { tagIds := ["A", "B", "C"], className := "my-tag", style := "s0", title := "t0" } },
             { text := "right", mark := none }] 1) 1)
        0
        [{ id := "A", name := "NameA", color := "#ff0000" },
         { id := "B", name := "NameB", color := "#00ff00" },
         { id := "C", name := "NameC", color := "#0000ff" }]).getD []).map extractTagInfo
      = [["A", "B"], ["A", "B"]] := by
  decide

/-- Claim C4 (amended).  The invariant the operations actually maintain is at
the level of full mark attributes: starting from a document in which no two
adjacent spans carry equal marks, document-scope removal, chunk-scope
removal and ApplyTag all yield documents in which no two adjacent spans
carry equal marks (adjacent text nodes with equal attribute tuples are
joined by the rendering layer).  Adjacent spans with identical tag-id sets
but different presentation attributes are not merged and may persist. -/
theorem c4_no_adjacent_equal_marks (rem : List String) (doc : Doc) (i : Nat)
    (tags : List Tag) (tag : Tag) (hdoc : NoAdjacentEqualMarks doc) :
    NoAdjacentEqualMarks (removeTagsFromDocument rem doc tags).doc
    ∧ (∀ d', removeTagsFromChunkAt rem doc i tags = some d' → NoAdjacentEqualMarks d')
    ∧ NoAdjacentEqualMarks (applyTagAt tag tags doc i) := by
  refine ⟨?_, ?_, ?_⟩
  · by_cases hval : doc.any (spanTargeted rem) = true
    · have heq : (removeTagsFromDocument rem doc tags).doc =
          mergeAdjacent (doc.map (removeSpanTags rem tags)) := by
        simp [removeTagsFromDocument, hval]
      rw [heq]
      exact noAdjacent_mergeAdjacent _
    · have heq : (removeTagsFromDocument rem doc tags).doc = doc := by
        simp [removeTagsFromDocument, hval]
      rw [heq]
      exact hdoc
  · intro d' hd'
    unfold removeTagsFromChunkAt at hd'
    split at hd'
    · simp at hd'
    · rcases Option.map_eq_some'.mp hd' with ⟨c, hc, hcd⟩
      rw [← hcd]
      exact noAdjacent_mergeAdjacent _
  · unfold applyTagAt
    split
    · exact hdoc
    · exact noAdjacent_mergeAdjacent _

/-- Witness for `c4_no_adjacent_equal_marks`: a two-span document with
distinct marks. -/
theorem c4_no_adjacent_equal_marks_witness :
    NoAdjacentEqualMarks
      ([{ text := "x", mark := some { tagIds := ["A"], className := "my-tag", style := "s", title := "t" } },
        { text := "y", mark := none }] : Doc)
    ∧ NoAdjacentEqualMarks (removeTagsFromDocument ["A"]
        [{ text := "x", mark := some { tagIds := ["A"], className := "my-tag", style := "s", title := "t" } },
         { text := "y", mark := none }] []).doc := by
  have hdoc : NoAdjacentEqualMarks
      ([{ text := "x", mark := some { tagIds := ["A"], className := "my-tag", style := "s", title := "t" } },
        { text := "y", mark := none }] : Doc) := by
    unfold NoAdjacentEqualMarks
    rw [List.chain'_cons]
    exact ⟨by simp, List.chain'_singleton _⟩
  exact ⟨hdoc, (c4_no_adjacent_equal_marks ["A"]
    [{ text := "x", mark := some { tagIds := ["A"], className := "my-tag", style := "s", title := "t" } },
     { text := "y", mark := none }] 0 []
    { id := "Z", name := "Z", color := "#fff" } hdoc).1⟩
